import Mathlib

/-!
Verification of `src/portallauncher.py` (class `PortalLauncher`, the
"PortalRequestShim" of the design document) against its specification.

The Python code is shallowly embedded as pure Lean functions.  The external
collaborators are modelled as an explicit environment:

* `os.open(self._path, O_PATH | O_CLOEXEC)` either yields a file descriptor
  or raises `FileNotFoundError` (`Env.openPath`);
* the D-Bus `OpenFile` call either returns a handle string or raises a
  `GLib.GError` that does or does not match `Gio.DBusError.UNKNOWN_METHOD`
  (`Env.openFile`);
* the D-Bus `OpenURI` call likewise (`Env.openUri`).

The specification's model of the remote service ("Both return a string
handle (possibly empty)") is kept: success handles range over all strings,
including the empty one.

`urlparse` is Python standard library, not repository code; a `ParsedUrl`
records the fields of its result that `PortalLauncher.__init__` caches
(`scheme`, `path`, and `geturl()`).

Executions are recorded as event traces so that claims about which remote
calls are issued, descriptor lifetime, and subscriptions can be stated.
-/

namespace PortalLauncher

/-- The fields of `urlparse(target)` that `__init__` reads:
`parsed_url.scheme`, `parsed_url.path` and `parsed_url.geturl()`
(portallauncher.py lines 41–44). -/
structure ParsedUrl where
  scheme : String
  path : String
  url : String
  deriving DecidableEq, Repr

/-- Embeds `self._is_local_file = not parsed_url.scheme or parsed_url.scheme == 'file'`
(portallauncher.py line 42). -/
def isLocalFile (u : ParsedUrl) : Bool :=
  u.scheme = "" || u.scheme = "file"

/-- Outcome of `os.open(self._path, os.O_PATH | os.O_CLOEXEC)`
(portallauncher.py line 106): a descriptor, or `FileNotFoundError`. -/
inductive OpenResult where
  | ok (fd : Nat)
  | fileNotFound
  deriving DecidableEq, Repr

/-- Whether a raised `GLib.GError` matches
`Gio.dbus_error_quark(), Gio.DBusError.UNKNOWN_METHOD`
(the test at portallauncher.py line 64). -/
inductive GErrorKind where
  | unknownMethod
  | other
  deriving DecidableEq, Repr

/-- Outcome of a synchronous D-Bus call on the proxy: a reply carrying a
handle string (possibly empty, per the service model of the design
document), or a raised `GLib.GError`. -/
inductive CallResult where
  | ok (handle : String)
  | err (k : GErrorKind)
  deriving DecidableEq, Repr

/-- The environment a `run()` execution unfolds in: the outcomes the
external collaborators would produce for each of the three effectful
operations, were they reached. -/
structure Env where
  openPath : OpenResult
  openFile : CallResult
  openUri : CallResult
  deriving DecidableEq, Repr

/-- Python exceptions that can escape `run()`:
`FileNotFoundError` from `os.open` (not a `GLib.GError`, hence not caught
by the `except GLib.GError` clause at line 63), or a `GLib.GError` from a
D-Bus call. -/
inductive PyError where
  | fileNotFound
  | gerror (k : GErrorKind)
  deriving DecidableEq, Repr

/-- Observable events of an execution.  `fdOpen`/`fdRelease` track the
descriptor obtained by `os.open`: `Gio.UnixFDList.new_from_array([fd])`
(line 116) takes ownership of the descriptor, and the list—a temporary of
the call expression—is finalized when the call returns or raises, closing
the descriptor. `subscribe h` records the `signal_subscribe` at lines
79–86 with object path `h`; `logWarningNoHandle` the warning at line 88. -/
inductive Event where
  | fdOpen (fd : Nat)
  | callOpenFile (fd : Nat)
  | fdRelease (fd : Nat)
  | callOpenUri (uri : String)
  | subscribe (handle : String)
  | logWarningNoHandle
  deriving DecidableEq, Repr

/-- Embeds `_run_open_file_method` (portallauncher.py lines 102–119): open the
path (raising `FileNotFoundError` if it is missing, before any remote
call), pass the descriptor to the `OpenFile` D-Bus method via a
`Gio.UnixFDList`, and return the unpacked handle.  The descriptor is
released when the FD list is finalized, on the reply path and on the
error path alike. -/
def runOpenFileMethod (env : Env) : List Event × Except PyError String :=
  match env.openPath with
  | .fileNotFound => ([], .error .fileNotFound)
  | .ok fd =>
    match env.openFile with
    | .ok handle => ([.fdOpen fd, .callOpenFile fd, .fdRelease fd], .ok handle)
    | .err k => ([.fdOpen fd, .callOpenFile fd, .fdRelease fd], .error (.gerror k))

/-- Embeds the computation of `uri` at portallauncher.py line 122:
the URL itself for a non-local target, `file://` followed by the path for
a local one. -/
def uriArgument (u : ParsedUrl) : String :=
  if isLocalFile u then "file://" ++ u.path else u.url

/-- Embeds `_run_open_uri_method` (portallauncher.py lines 121–125): call the
`OpenURI` D-Bus method with an empty parent-window token, the URI and
empty options, returning its handle. -/
def runOpenUriMethod (u : ParsedUrl) (env : Env) : List Event × Except PyError String :=
  ([.callOpenUri (uriArgument u)],
    match env.openUri with
    | .ok handle => .ok handle
    | .err k => .error (.gerror k))

/-- Python truthiness of the `handle` variable in `run()`: it is `None` or
a string, and `if handle:` / `if not handle:` test it for being a
non-empty string. -/
def truthy : Option String → Bool
  | none => false
  | some s => s ≠ ""

/-- Embeds `run` (portallauncher.py lines 57–88).  `handle` starts as `None`.
If the target is local, `_run_open_file_method` is attempted; a
`GLib.GError` matching `UNKNOWN_METHOD` is swallowed with a warning
(leaving `handle = None`), any other `GLib.GError` is re-raised, and
`FileNotFoundError` is not caught at all.  Then `if not handle`, the
`OpenURI` method is called.  Finally, a truthy handle is subscribed to;
otherwise a warning is logged.  The returned value is the trace of
events together with either the escaped exception or the final value of
`handle`. -/
def run (u : ParsedUrl) (env : Env) : List Event × Except PyError (Option String) :=
  let step1 : List Event × Except PyError (Option String) :=
    if isLocalFile u then
      match runOpenFileMethod env with
      | (tr, .ok h) => (tr, .ok (some h))
      | (tr, .error (.gerror .unknownMethod)) => (tr, .ok none)
      | (tr, .error e) => (tr, .error e)
    else
      ([], .ok none)
  match step1 with
  | (tr, .error e) => (tr, .error e)
  | (tr, .ok h0) =>
    let step2 : List Event × Except PyError (Option String) :=
      if truthy h0 then ([], .ok h0)
      else
        match runOpenUriMethod u env with
        | (tr2, .ok h) => (tr2, .ok (some h))
        | (tr2, .error e) => (tr2, .error e)
    match step2 with
    | (tr2, .error e) => (tr ++ tr2, .error e)
    | (tr2, .ok h) =>
      if truthy h then
        (tr ++ tr2 ++ [.subscribe (h.getD "")], .ok h)
      else
        (tr ++ tr2 ++ [.logWarningNoHandle], .ok h)

/-- The spec's `ResponseOutcome` tags, as logged by `_response_received`
(portallauncher.py lines 92–97): used for logging only. -/
inductive ResponseOutcome where
  | success
  | userCancelled
  | error
  deriving DecidableEq, Repr

/-- The `if/elif` chain of `_response_received` (lines 92–97): code 0 logs
success, 1 logs user cancellation, 2 logs an error; any other code logs
nothing and raises nothing. -/
def responseLog (code : Int) : Option ResponseOutcome :=
  if code = 0 then some .success
  else if code = 1 then some .userCancelled
  else if code = 2 then some .error
  else none

/-- Embeds `_response_received` (portallauncher.py lines 90–100): unpack the
response code, log its outcome, and—whatever the code was—invoke the
stored callback (when one was supplied) with the stored data.  The result
is the logged outcome and the number of callback invocations this
delivery performs.  Note the handler does not unsubscribe. -/
def responseReceived (code : Int) (hasCallback : Bool) : Option ResponseOutcome × Nat :=
  (responseLog code, if hasCallback then 1 else 0)

/-- A `Response` signal delivery as dispatched by GDBus to the
subscription: the object path it is scoped to and the response code it
carries (sender, interface and signal name are assumed to match the
subscription's filters). -/
structure Delivery where
  objectPath : String
  code : Int
  deriving DecidableEq, Repr

/-- The handle of the first `subscribe` event of a trace, if any. -/
def subscriptionOf : List Event → Option String
  | [] => none
  | .subscribe h :: _ => some h
  | _ :: tr => subscriptionOf tr

/-- GDBus dispatch of a sequence of `Response` deliveries against the
subscription created by `run` (if any): since `_response_received` never
calls `signal_unsubscribe`, every delivery whose object path equals the
subscribed handle invokes the handler.  Returns the total number of
callback invocations. -/
def deliveredCallbacks (sub : Option String) (hasCallback : Bool)
    (ds : List Delivery) : Nat :=
  match sub with
  | none => 0
  | some h =>
    (ds.filter (fun d => d.objectPath = h)).foldl
      (fun n d => n + (responseReceived d.code hasCallback).2) 0

/-- Events that are remote (D-Bus) calls. -/
def isRemoteCall : Event → Bool
  | .callOpenFile _ => true
  | .callOpenUri _ => true
  | _ => false

/-- Events that are `signal_subscribe` calls. -/
def isSubscribe : Event → Bool
  | .subscribe _ => true
  | _ => false

/-- Events that are `OpenURI` D-Bus calls. -/
def isUriCall : Event → Bool
  | .callOpenUri _ => true
  | _ => false

/-- Events that are `OpenFile` D-Bus calls. -/
def isFileCall : Event → Bool
  | .callOpenFile _ => true
  | _ => false

/-- Events that open a descriptor. -/
def isFdOpen : Event → Bool
  | .fdOpen _ => true
  | _ => false

/-- Events that release a descriptor. -/
def isFdRelease : Event → Bool
  | .fdRelease _ => true
  | _ => false

/-! ## Helper lemmas -/

/-- Dispatching a list of deliveries adds one callback invocation per
delivery when a callback is stored. -/
theorem foldl_responseReceived (l : List Delivery) (n : Nat) :
    l.foldl (fun n d => n + (responseReceived d.code true).2) n = n + l.length := by
  induction l generalizing n with
  | nil => simp
  | cons d l ih =>
    rw [List.foldl_cons, ih]
    simp [responseReceived]
    omega

/-- With a stored callback, the total number of callback invocations over a
delivery sequence equals the number of deliveries scoped to the
subscribed handle. -/
theorem deliveredCallbacks_count (h : String) (ds : List Delivery) :
    deliveredCallbacks (some h) true ds =
      (ds.filter (fun d => d.objectPath = h)).length := by
  simp [deliveredCallbacks, foldl_responseReceived]

/-- Without a subscription, no delivery sequence ever invokes the
callback. -/
theorem deliveredCallbacks_none (hasCb : Bool) (ds : List Delivery) :
    deliveredCallbacks none hasCb ds = 0 := by
  simp [deliveredCallbacks]

/-! ## Claim theorems -/

/-- C4: for every local target whose path does not exist, `run()` raises
`FileNotFoundError` (the spec's `TargetNotFoundError`) out of
`_run_open_file_method`; its trace is empty, so no remote call is issued,
no fallback is attempted, no subscription is made, and the completion
callback never fires for any delivery sequence. -/
theorem C4_missing_path_fails_without_remote_call
    (u : ParsedUrl) (env : Env) (hasCb : Bool) (ds : List Delivery)
    (hL : isLocalFile u = true) (hP : env.openPath = .fileNotFound) :
    run u env = ([], .error .fileNotFound) ∧
    ((run u env).1.filter isRemoteCall).length = 0 ∧
    subscriptionOf (run u env).1 = none ∧
    deliveredCallbacks (subscriptionOf (run u env).1) hasCb ds = 0 := by
  have hrun : run u env = ([], .error .fileNotFound) := by
    simp [run, runOpenFileMethod, hL, hP]
  refine ⟨hrun, ?_, ?_, ?_⟩ <;>
    simp [hrun, subscriptionOf, deliveredCallbacks]

/-- Witness for C4 at the spec's scenario `/missing/file.txt`. -/
theorem C4_missing_path_fails_without_remote_call_witness :
    run ⟨"", "/missing/file.txt", "/missing/file.txt"⟩
        ⟨.fileNotFound, .ok "/req/0", .ok "/req/0"⟩ =
      ([], .error .fileNotFound) ∧
    deliveredCallbacks
      (subscriptionOf (run ⟨"", "/missing/file.txt", "/missing/file.txt"⟩
        ⟨.fileNotFound, .ok "/req/0", .ok "/req/0"⟩).1) true [⟨"/req/0", 0⟩] = 0 :=
  ⟨(C4_missing_path_fails_without_remote_call _ _ true [⟨"/req/0", 0⟩]
      (by decide) rfl).1,
   (C4_missing_path_fails_without_remote_call _ _ true [⟨"/req/0", 0⟩]
      (by decide) rfl).2.2.2⟩

/-- C8: every execution of `run()` issues at most two remote calls and
creates at most one response-notification subscription. -/
theorem C8_at_most_two_calls_one_subscription (u : ParsedUrl) (env : Env) :
    ((run u env).1.filter isRemoteCall).length ≤ 2 ∧
    ((run u env).1.filter isSubscribe).length ≤ 1 := by
  rcases env with ⟨fd | _, hf | (_ | _), hu | (_ | _)⟩ <;>
  by_cases hL : isLocalFile u <;>
    (try by_cases h1 : hf = "") <;> (try by_cases h2 : hu = "") <;>
    simp_all [run, runOpenFileMethod, runOpenUriMethod, truthy,
      isRemoteCall, isSubscribe]

/-- C9: whenever `os.open` yields a descriptor, `_run_open_file_method`
releases it right after the remote call, on the reply path and on the
error path alike; consequently every `run()` trace opens and releases
descriptors in balance. -/
theorem C9_descriptor_released_on_both_paths
    (u : ParsedUrl) (env : Env) (fd : Nat) (h : String) (k : GErrorKind)
    (hP : env.openPath = .ok fd) :
    (env.openFile = .ok h →
      runOpenFileMethod env =
        ([.fdOpen fd, .callOpenFile fd, .fdRelease fd], .ok h)) ∧
    (env.openFile = .err k →
      runOpenFileMethod env =
        ([.fdOpen fd, .callOpenFile fd, .fdRelease fd], .error (.gerror k))) ∧
    ((run u env).1.filter isFdOpen).length =
      ((run u env).1.filter isFdRelease).length := by
  refine ⟨?_, ?_, ?_⟩
  · intro hF; simp [runOpenFileMethod, hP, hF]
  · intro hF; simp [runOpenFileMethod, hP, hF]
  · rcases env with ⟨fd' | _, hf | (_ | _), hu | (_ | _)⟩ <;>
    by_cases hL : isLocalFile u <;>
      (try by_cases h1 : hf = "") <;> (try by_cases h2 : hu = "") <;>
      simp_all [run, runOpenFileMethod, runOpenUriMethod, truthy,
        isFdOpen, isFdRelease]

/-- Witness for C9: a concrete local target whose `OpenFile` call fails
with a non-recoverable error still releases the descriptor. -/
theorem C9_descriptor_released_on_both_paths_witness :
    runOpenFileMethod ⟨.ok 7, .err .other, .ok "/req/9"⟩ =
      ([.fdOpen 7, .callOpenFile 7, .fdRelease 7], .error (.gerror .other)) :=
  (C9_descriptor_released_on_both_paths
      ⟨"", "/home/user/Documents/report.pdf", "/home/user/Documents/report.pdf"⟩
      ⟨.ok 7, .err .other, .ok "/req/9"⟩ 7 "" .other rfl).2.1 rfl

/-- C5: for a local target whose path opens, an `OpenFile` failure matching
`UNKNOWN_METHOD` leads to the URI method being attempted with the target
rewritten to `file://<path>`, while any other `GLib.GError` from
`OpenFile` propagates out of `run()` with the URI method never
attempted. -/
theorem C5_unknown_method_falls_back_others_propagate
    (u : ParsedUrl) (env : Env) (fd : Nat)
    (hL : isLocalFile u = true) (hP : env.openPath = .ok fd) :
    (env.openFile = .err .unknownMethod →
      Event.callOpenUri ("file://" ++ u.path) ∈ (run u env).1) ∧
    (env.openFile = .err .other →
      (run u env).2 = .error (.gerror .other) ∧
      ((run u env).1.filter isUriCall).length = 0) := by
  constructor
  · intro hF
    rcases env with ⟨op, ofi, hu | (_ | _)⟩ <;>
      (try by_cases h2 : hu = "") <;>
      simp_all [run, runOpenFileMethod, runOpenUriMethod, uriArgument,
        truthy, hL]
  · intro hF
    rcases env with ⟨op, ofi, ou⟩
    simp_all [run, runOpenFileMethod, truthy, hL, isUriCall]

/-- Witness for C5 at the spec's scenario: a local report.pdf, `OpenFile`
unknown to the service, fallback invoked with the `file://` rewrite. -/
theorem C5_unknown_method_falls_back_others_propagate_witness :
    Event.callOpenUri "file:///home/user/Documents/report.pdf" ∈
      (run ⟨"", "/home/user/Documents/report.pdf", "/home/user/Documents/report.pdf"⟩
           ⟨.ok 4, .err .unknownMethod, .ok "/req/5"⟩).1 :=
  (C5_unknown_method_falls_back_others_propagate _ _ 4 (by decide) rfl).1 rfl

/-- C6: a target with a non-empty, non-`file` scheme never triggers the
file-handle method nor any local-path open — its every execution issues
exactly one remote call, `OpenURI` with the target's own URI string —
while a local target whose path opens always issues the file-handle
method as its first remote call. -/
theorem C6_nonlocal_uses_uri_local_uses_file_first
    (u : ParsedUrl) (env : Env) (fd : Nat) :
    (u.scheme ≠ "" → u.scheme ≠ "file" →
      (run u env).1.filter isRemoteCall = [.callOpenUri u.url] ∧
      ((run u env).1.filter isFdOpen).length = 0) ∧
    (isLocalFile u = true → env.openPath = .ok fd →
      ((run u env).1.filter isRemoteCall).head? = some (.callOpenFile fd)) := by
  constructor
  · intro hs hf
    have hL : isLocalFile u = false := by
      simp [isLocalFile, hs, hf]
    rcases env with ⟨op, ofi, hu | (_ | _)⟩ <;>
      (try by_cases h2 : hu = "") <;>
      simp_all [run, runOpenFileMethod, runOpenUriMethod, uriArgument,
        truthy, isRemoteCall, isFdOpen]
  · intro hL hP
    rcases env with ⟨op, hf | (_ | _), hu | (_ | _)⟩ <;>
      (try by_cases h1 : hf = "") <;> (try by_cases h2 : hu = "") <;>
      simp_all [run, runOpenFileMethod, runOpenUriMethod, truthy,
        isRemoteCall]

/-- Witness for C6 at the spec's scenarios: `https://example.com/page`
issues only `OpenURI` with that string, and an existing local path issues
`OpenFile` first. -/
theorem C6_nonlocal_uses_uri_local_uses_file_first_witness :
    ((run ⟨"https", "/page", "https://example.com/page"⟩
        ⟨.ok 1, .ok "/r", .ok "/req/6"⟩).1.filter isRemoteCall =
      [.callOpenUri "https://example.com/page"]) ∧
    (((run ⟨"", "/home/user/Documents/report.pdf", "/home/user/Documents/report.pdf"⟩
        ⟨.ok 5, .ok "/req/42", .ok "/req/6"⟩).1.filter isRemoteCall).head? =
      some (.callOpenFile 5)) :=
  ⟨((C6_nonlocal_uses_uri_local_uses_file_first _
      ⟨.ok 1, .ok "/r", .ok "/req/6"⟩ 0).1 (by decide) (by decide)).1,
   (C6_nonlocal_uses_uri_local_uses_file_first _
      ⟨.ok 5, .ok "/req/42", .ok "/req/6"⟩ 5).2 (by decide) rfl⟩

/-- C7: the response handler logs code 0 as `Success`, 1 as
`UserCancelled`, 2 as `Error`; every other integer logs nothing and is
accepted without raising (the handler is total); and for every code the
stored callback is invoked exactly once when present, never when
absent. -/
theorem C7_response_code_mapping (code : Int) :
    responseLog 0 = some .success ∧
    responseLog 1 = some .userCancelled ∧
    responseLog 2 = some .error ∧
    (code ≠ 0 → code ≠ 1 → code ≠ 2 → responseLog code = none) ∧
    (responseReceived code true).2 = 1 ∧
    (responseReceived code false).2 = 0 := by
  refine ⟨rfl, rfl, rfl, ?_, rfl, rfl⟩
  intro h0 h1 h2
  simp [responseLog, h0, h1, h2]

/-- Witness for C7 at the unrecognized code 3: nothing is logged and the
callback still fires once. -/
theorem C7_response_code_mapping_witness :
    responseLog 3 = none ∧ (responseReceived 3 true).2 = 1 :=
  ⟨(C7_response_code_mapping 3).2.2.2.1 (by decide) (by decide) (by decide),
   (C7_response_code_mapping 3).2.2.2.2.1⟩

/-- C10: the unknown-method recovery never applies to the URI method — in
every execution where `OpenURI` is actually invoked and the service
answers it with a `GLib.GError` of any kind (the unknown-method one
included), `run()` propagates that error, issues the URI call exactly
once with no retry, and makes no subscription, so no delivery sequence
ever invokes the callback. -/
theorem C10_uri_method_errors_always_propagate
    (u : ParsedUrl) (env : Env) (k : GErrorKind) (hasCb : Bool)
    (ds : List Delivery)
    (hU : env.openUri = .err k)
    (hI : Event.callOpenUri (uriArgument u) ∈ (run u env).1) :
    (run u env).2 = .error (.gerror k) ∧
    ((run u env).1.filter isUriCall).length = 1 ∧
    subscriptionOf (run u env).1 = none ∧
    deliveredCallbacks (subscriptionOf (run u env).1) hasCb ds = 0 := by
  have key : (run u env).2 = .error (.gerror k) ∧
      ((run u env).1.filter isUriCall).length = 1 ∧
      subscriptionOf (run u env).1 = none := by
    rcases env with ⟨op | _, hf | (_ | _), ou⟩ <;>
      by_cases hL : isLocalFile u <;>
        (try by_cases h1 : hf = "") <;>
        simp_all [run, runOpenFileMethod, runOpenUriMethod, truthy,
          isUriCall, subscriptionOf]
  refine ⟨key.1, key.2.1, key.2.2, ?_⟩
  rw [key.2.2]
  exact deliveredCallbacks_none hasCb ds

/-- Witness for C10: even an unknown-method error from `OpenURI` itself
propagates, with a single URI call and no subscription. -/
theorem C10_uri_method_errors_always_propagate_witness :
    (run ⟨"https", "/page", "https://example.com/page"⟩
        ⟨.ok 1, .ok "/r", .err .unknownMethod⟩).2 =
      .error (.gerror .unknownMethod) ∧
    deliveredCallbacks
      (subscriptionOf (run ⟨"https", "/page", "https://example.com/page"⟩
        ⟨.ok 1, .ok "/r", .err .unknownMethod⟩).1) true [⟨"/r", 0⟩] = 0 :=
  ⟨(C10_uri_method_errors_always_propagate _ _ .unknownMethod true
      [⟨"/r", 0⟩] rfl (by decide)).1,
   (C10_uri_method_errors_always_propagate _ _ .unknownMethod true
      [⟨"/r", 0⟩] rfl (by decide)).2.2.2⟩

/-- C1 as stated is false on the code: `_response_received`
(portallauncher.py lines 90–100) never calls `signal_unsubscribe`, so the
subscription made by `run()` is not cancelled upon first delivery.  At
this concrete input, `run()` obtains the non-empty handle `/req/1` and a
second `Response` delivery for that exact handle invokes the completion
callback a second time — the count is 2, not 1. -/
theorem C1_counterexample :
    (run ⟨"https", "/page", "https://example.com/page"⟩
        ⟨.ok 1, .ok "/r", .ok "/req/1"⟩).2 = .ok (some "/req/1") ∧
    deliveredCallbacks
      (subscriptionOf (run ⟨"https", "/page", "https://example.com/page"⟩
          ⟨.ok 1, .ok "/r", .ok "/req/1"⟩).1) true
      [⟨"/req/1", 0⟩, ⟨"/req/1", 0⟩] = 2 :=
  ⟨rfl, rfl⟩

/-- C1 amended: when `run()` ends with a non-empty handle, it subscribes
to exactly that handle, and the completion callback is invoked once per
`Response` delivery scoped to it — hence zero times before any such
notification arrives and exactly once when the service delivers exactly
one; the subscription is never cancelled, so duplicate deliveries would
each invoke the callback again. -/
theorem C1_amended_callback_once_per_delivery
    (u : ParsedUrl) (env : Env) (ds : List Delivery) (s : String)
    (hr : (run u env).2 = .ok (some s)) (hs : s ≠ "") :
    subscriptionOf (run u env).1 = some s ∧
    deliveredCallbacks (subscriptionOf (run u env).1) true ds =
      (ds.filter (fun d => d.objectPath = s)).length ∧
    (ds.filter (fun d => d.objectPath = s) = [] →
      deliveredCallbacks (subscriptionOf (run u env).1) true ds = 0) := by
  have hsub : subscriptionOf (run u env).1 = some s := by
    rcases env with ⟨op | _, hf | (_ | _), hu | (_ | _)⟩ <;>
      by_cases hL : isLocalFile u <;>
        (try by_cases h1 : hf = "") <;> (try by_cases h2 : hu = "") <;>
        simp_all [run, runOpenFileMethod, runOpenUriMethod, truthy,
          subscriptionOf]
  refine ⟨hsub, ?_, ?_⟩
  · rw [hsub, deliveredCallbacks_count]
  · intro hnil
    rw [hsub, deliveredCallbacks_count, hnil]
    rfl

/-- Witness for the amended C1: one delivery for the subscribed handle,
one callback invocation. -/
theorem C1_amended_callback_once_per_delivery_witness :
    subscriptionOf (run ⟨"https", "/page", "https://example.com/page"⟩
        ⟨.ok 1, .ok "/r", .ok "/req/w1"⟩).1 = some "/req/w1" ∧
    deliveredCallbacks
      (subscriptionOf (run ⟨"https", "/page", "https://example.com/page"⟩
          ⟨.ok 1, .ok "/r", .ok "/req/w1"⟩).1) true [⟨"/req/w1", 0⟩] = 1 := by
  have h := C1_amended_callback_once_per_delivery
    ⟨"https", "/page", "https://example.com/page"⟩
    ⟨.ok 1, .ok "/r", .ok "/req/w1"⟩ [⟨"/req/w1", 0⟩] "/req/w1" rfl
    (by decide)
  refine ⟨h.1, ?_⟩
  rw [h.2.1]
  rfl

/-- C2 as stated is false on the code: `run()` only tests `if not handle`
(line 72), so a *successful* `OpenFile` call whose reply carries an empty
handle also falls through to `OpenURI`.  At this concrete input the
target is local, `OpenFile` succeeds (it does not fail with
unknown-method), and the URI method is nevertheless invoked. -/
theorem C2_counterexample :
    isLocalFile ⟨"", "/home/user/doc.pdf", "/home/user/doc.pdf"⟩ = true ∧
    Env.openFile ⟨.ok 3, .ok "", .ok "/req/2"⟩ = .ok "" ∧
    Event.callOpenUri "file:///home/user/doc.pdf" ∈
      (run ⟨"", "/home/user/doc.pdf", "/home/user/doc.pdf"⟩
        ⟨.ok 3, .ok "", .ok "/req/2"⟩).1 := by
  refine ⟨by decide, rfl, by decide⟩

/-- C2 amended: the URI method is invoked if and only if the target is
non-local, or the local path opened and the file-handle call failed with
the unknown-method error, or the local path opened and the file-handle
call succeeded but returned an empty handle. -/
theorem C2_amended_uri_method_condition (u : ParsedUrl) (env : Env) :
    (∃ s, Event.callOpenUri s ∈ (run u env).1) ↔
      (isLocalFile u = false ∨
        ((∃ fd, env.openPath = .ok fd) ∧
          (env.openFile = .err .unknownMethod ∨ env.openFile = .ok ""))) := by
  rcases env with ⟨op | _, hf | (_ | _), hu | (_ | _)⟩ <;>
    by_cases hL : isLocalFile u <;>
      (try by_cases h1 : hf = "") <;> (try by_cases h2 : hu = "") <;>
      simp_all [run, runOpenFileMethod, runOpenUriMethod, truthy]

/-- Witness for the amended C2: the empty-handle success case makes the
URI method fire. -/
theorem C2_amended_uri_method_condition_witness :
    ∃ s, Event.callOpenUri s ∈
      (run ⟨"", "/home/user/doc.pdf", "/home/user/doc.pdf"⟩
        ⟨.ok 3, .ok "", .ok "/req/2"⟩).1 :=
  (C2_amended_uri_method_condition _ _).mpr (Or.inr ⟨⟨3, rfl⟩, Or.inr rfl⟩)

/-- C3 as stated is false on the code: at this concrete input the
`OpenFile` remote call returns an empty handle, yet `run()` does not
return without subscribing — the empty handle triggers the `OpenURI`
fallback, whose non-empty handle is subscribed to, and a matching
delivery then invokes the completion callback. -/
theorem C3_counterexample :
    Env.openFile ⟨.ok 6, .ok "", .ok "/req/3"⟩ = .ok "" ∧
    subscriptionOf (run ⟨"", "/home/user/notes.txt", "/home/user/notes.txt"⟩
        ⟨.ok 6, .ok "", .ok "/req/3"⟩).1 = some "/req/3" ∧
    deliveredCallbacks
      (subscriptionOf (run ⟨"", "/home/user/notes.txt", "/home/user/notes.txt"⟩
          ⟨.ok 6, .ok "", .ok "/req/3"⟩).1) true [⟨"/req/3", 0⟩] = 1 :=
  ⟨rfl, rfl, rfl⟩

/-- C3 amended: when the handle `run()` finally ends with is empty or
absent (after any fallback), `run()` returns without subscribing, logs
the no-handle warning, and the completion callback is never invoked for
any delivery sequence. -/
theorem C3_amended_empty_final_handle_no_callback
    (u : ParsedUrl) (env : Env) (hasCb : Bool) (ds : List Delivery)
    (h : Option String)
    (hr : (run u env).2 = .ok h) (hf : truthy h = false) :
    subscriptionOf (run u env).1 = none ∧
    Event.logWarningNoHandle ∈ (run u env).1 ∧
    deliveredCallbacks (subscriptionOf (run u env).1) hasCb ds = 0 := by
  have key : subscriptionOf (run u env).1 = none ∧
      Event.logWarningNoHandle ∈ (run u env).1 := by
    rcases h with _ | hs
    · exfalso
      rcases env with ⟨op | _, hfh | (_ | _), hu | (_ | _)⟩ <;>
        by_cases hL : isLocalFile u <;>
          (try by_cases h1 : hfh = "") <;> (try by_cases h2 : hu = "") <;>
          simp_all [run, runOpenFileMethod, runOpenUriMethod, truthy]
    · simp only [truthy, Bool.not_eq_true'] at hf
      rw [decide_eq_false_iff_not, not_not] at hf
      subst hf
      rcases env with ⟨op | _, hfh | (_ | _), hu | (_ | _)⟩ <;>
        by_cases hL : isLocalFile u <;>
          (try by_cases h1 : hfh = "") <;> (try by_cases h2 : hu = "") <;>
          simp_all [run, runOpenFileMethod, runOpenUriMethod, truthy,
            subscriptionOf]
  refine ⟨key.1, key.2, ?_⟩
  rw [key.1]
  exact deliveredCallbacks_none hasCb ds

/-- Witness for the amended C3: an `OpenURI` reply with an empty handle
leaves no subscription and fires no callback. -/
theorem C3_amended_empty_final_handle_no_callback_witness :
    subscriptionOf (run ⟨"https", "/page", "https://example.com/page"⟩
        ⟨.ok 1, .ok "/r", .ok ""⟩).1 = none ∧
    deliveredCallbacks
      (subscriptionOf (run ⟨"https", "/page", "https://example.com/page"⟩
          ⟨.ok 1, .ok "/r", .ok ""⟩).1) true [⟨"/req/3", 0⟩] = 0 :=
  ⟨(C3_amended_empty_final_handle_no_callback
      ⟨"https", "/page", "https://example.com/page"⟩ ⟨.ok 1, .ok "/r", .ok ""⟩
      true [⟨"/req/3", 0⟩] (some "") rfl rfl).1,
   (C3_amended_empty_final_handle_no_callback
      ⟨"https", "/page", "https://example.com/page"⟩ ⟨.ok 1, .ok "/r", .ok ""⟩
      true [⟨"/req/3", 0⟩] (some "") rfl rfl).2.2⟩

end PortalLauncher
